import Mathlib

/-!
Shallow embedding of the cooking-recipe service (FastAPI app) and proofs
about its chat-session state machine (`app/routers/chat.py`) and its job
store / pipeline orchestrator (`app/routers/analyze.py`).

Machine integers are modelled as `Int`/`Nat`; timestamps as `Nat`;
Python dicts with a fixed key set as structures; `OrderedDict` as an
insertion-ordered association list; raised `HTTPException`s as
`Except HttpError` results; the external providers (video download,
Whisper transcription, GPT parsing, chat completion) as explicit
outcome parameters.
-/

deriving instance DecidableEq for Except

namespace KTB

/-! ## Constants from `app/routers/chat.py` -/

def MAX_HISTORY_MESSAGES : Nat := 6

def MAX_IMAGE_SIZE_MB : Nat := 10

def MAX_IMAGE_SIZE_BYTES : Nat := MAX_IMAGE_SIZE_MB * 1024 * 1024

def API_MAX_RETRIES : Nat := 2

/-! ## Data model for chat sessions -/

/-- One recipe step, as the dict `{"instruction": ..., "tips": ...,
"duration": ..., "timestamp": ...}`; absent keys are `none`
(the code reads them with `.get(key, default)`). -/
structure RecipeStep where
  instruction : Option String
  tips : Option String
  duration : Option String
  timestamp : Option Int
deriving Repr, DecidableEq, Inhabited

/-- A recipe dict: the code reads `title`, `difficulty`, `steps`,
`ingredients` with `.get`. -/
structure Recipe where
  title : Option String
  difficulty : Option String
  steps : List RecipeStep
  ingredients : List String
deriving Repr, DecidableEq, Inhabited

/-- Message content: either a plain string or the multimodal
list-of-parts form built by `_build_user_content` (an optional
image-url part followed by a text part). -/
inductive MsgContent where
  | text (s : String)
  | parts (imageUrl : Option String) (textPart : String)
deriving Repr, DecidableEq

/-- One entry of `session["chat_history"]`.  Assistant entries are
stored without a `has_image` key, hence `Option Bool`. -/
structure ChatMsg where
  role : String
  content : MsgContent
  step_number : Int
  has_image : Option Bool
deriving Repr, DecidableEq

/-- One value of the `cooking_sessions` store. -/
structure Session where
  recipe : Recipe
  current_step : Int
  total_steps : Nat
  steps : List RecipeStep
  completed_steps : List Int
  chat_history : List ChatMsg
  ingredients : List String
  created_at : Nat
deriving Repr, DecidableEq

/-- An `HTTPException(status_code, detail)`. -/
structure HttpError where
  status_code : Nat
  detail : String
deriving Repr, DecidableEq

/-! ## Helper functions of `chat.py` -/

/-- `start_cooking_session`: the fresh session record stored under the
new uuid (store bookkeeping and the expiry sweep are elided; the claims
are per-session). -/
def start_cooking_session (recipe : Recipe) (now : Nat) : Session :=
  { recipe := recipe
    current_step := 1
    total_steps := recipe.steps.length
    steps := recipe.steps
    completed_steps := []
    chat_history := []
    ingredients := recipe.ingredients
    created_at := now }

/-- `_validate_step_number`: `400` when `step_number < 1` or
`step_number > total_steps`. -/
def validate_step_number (step_number : Int) (total_steps : Nat) : Option HttpError :=
  if step_number < 1 ∨ step_number > (total_steps : Int) then
    some { status_code := 400, detail := "잘못된 단계 번호입니다." }
  else
    none

/-- `_calculate_progress`: `int((completed / total) * 100)`, `0` when
`total <= 0`.  Both arguments are list lengths, so `Nat`; the float
round-trip is modelled as exact floor division. -/
def calculate_progress (completed : Nat) (total : Nat) : Nat :=
  if total ≤ 0 then 0 else completed * 100 / total

/-- `_validate_image_size` applied to `len(base64.b64decode(...))`:
the decoded byte count is the argument. -/
def validate_image_size (imageByteLen : Nat) : Option HttpError :=
  if imageByteLen > MAX_IMAGE_SIZE_BYTES then
    some { status_code := 400
           detail := "이미지 크기가 너무 큽니다. 최대 " ++ toString MAX_IMAGE_SIZE_MB
             ++ "MB까지 허용됩니다." }
  else
    none

/-- `_build_system_prompt`.  The template text `prompts/assistant.txt`
is loaded from disk and is not part of the sources; the claims never
inspect the prompt, so the formatting is modelled as an injective
tagging of the same six arguments the code substitutes. -/
def build_system_prompt (recipe : Recipe) (step : RecipeStep)
    (step_number : Int) (total_steps : Nat) : String :=
  "recipe_title=" ++ recipe.title.getD "요리"
    ++ ";step_number=" ++ toString step_number
    ++ ";instruction=" ++ step.instruction.getD ""
    ++ ";tips=" ++ step.tips.getD "없음"
    ++ ";difficulty=" ++ recipe.difficulty.getD "보통"
    ++ ";total_steps=" ++ toString total_steps

/-- `_build_user_content`: an optional `data:image/jpeg;base64,...`
image part, then the tagged text part. -/
def build_user_content (message : String) (step_number : Int)
    (image_base64 : Option String) : MsgContent :=
  .parts (image_base64.map (fun b => "data:image/jpeg;base64," ++ b))
    ("[Step " ++ toString step_number ++ " 진행 중] " ++ message)

/-! ## `complete_step` -/

/-- Response body of `POST /session/{id}/complete-step/{n}`. -/
structure CompleteStepResponse where
  message : String
  next_step : Int
  is_finished : Bool
deriving Repr, DecidableEq

/-- `complete_step`: append the step if absent, advance `current_step`
when the step is below `total_steps` (note: the handler performs no
range validation on `step_number`). -/
def complete_step (s : Session) (step_number : Int) :
    Session × CompleteStepResponse :=
  let s1 := if step_number ∈ s.completed_steps then s
    else { s with completed_steps := s.completed_steps ++ [step_number] }
  let s2 := if step_number < (s1.total_steps : Int) then
      { s1 with current_step := step_number + 1 }
    else s1
  (s2, { message := "Step " ++ toString step_number ++ " 완료!"
         next_step := s2.current_step
         is_finished := s2.completed_steps.length == s2.total_steps })

/-! ## `_call_chat_api` -/

/-- One message of the list handed to
`client.chat.completions.create`. -/
structure ApiMsg where
  role : String
  content : MsgContent
deriving Repr, DecidableEq

/-- What one attempt of the provider call can produce:
a response (its list of choices, each with an optional content
string), or one of the exception classes the code catches
(`RateLimitError`, `APIConnectionError`, other `APIError`, any other
`Exception`), each carrying its `str(...)` text. -/
inductive ApiOutcome where
  | success (choices : List (Option String))
  | rateLimitError (msg : String)
  | apiConnectionError (msg : String)
  | apiError (msg : String)
  | otherError (msg : String)
deriving Repr, DecidableEq

/-- The `HTTPException(500, f"AI 응답 생성 실패: {str(last_error)[:100]}")`
raised when the loop ends without a reply. -/
def api_fail_http (lastError : String) : HttpError :=
  { status_code := 500, detail := "AI 응답 생성 실패: " ++ lastError.take 100 }

/-- `str` of the `APIError` the code raises when the response carries
no choices. -/
def no_choices_msg : String := "응답에 choices가 없습니다"

/-- The `for attempt in range(max_retries + 1)` loop of
`_call_chat_api`.  `provider attempt` is the outcome of the provider
call on that attempt; `retries_left = max_retries - attempt`, so the
code's retry guard `attempt < max_retries` is `retries_left > 0`.
Returns the result (reply text, or the raised `HTTPException`)
together with the trace of requests issued to the provider, one entry
per attempt actually made.  An empty choice list raises an `APIError`
inside the `try`, which the `except APIError` clause retries;
rate-limit and generic exceptions `break`; connection and API errors
`continue` while attempts remain; every exit with no reply raises the
summarized 500 carrying the last error. -/
def call_chat_api_loop (messages : List ApiMsg) (provider : Nat → ApiOutcome) :
    (attempt : Nat) → (retries_left : Nat) →
    Except HttpError String × List (List ApiMsg)
  | attempt, 0 =>
      -- last iteration (`attempt == max_retries`): no branch may retry
      (match provider attempt with
       | .success (c :: _) => (.ok (c.getD ""), [messages])
       | .success [] => (.error (api_fail_http no_choices_msg), [messages])
       | .rateLimitError e => (.error (api_fail_http e), [messages])
       | .apiConnectionError e => (.error (api_fail_http e), [messages])
       | .apiError e => (.error (api_fail_http e), [messages])
       | .otherError e => (.error (api_fail_http e), [messages]))
  | attempt, rl + 1 =>
      -- `attempt < max_retries`: connection/API errors and the
      -- no-choices `APIError` continue with the next attempt
      (match provider attempt with
       | .success (c :: _) => (.ok (c.getD ""), [messages])
       | .success [] =>
           let rest := call_chat_api_loop messages provider (attempt + 1) rl
           (rest.1, messages :: rest.2)
       | .rateLimitError e => (.error (api_fail_http e), [messages])
       | .apiConnectionError _e =>
           let rest := call_chat_api_loop messages provider (attempt + 1) rl
           (rest.1, messages :: rest.2)
       | .apiError _e =>
           let rest := call_chat_api_loop messages provider (attempt + 1) rl
           (rest.1, messages :: rest.2)
       | .otherError e => (.error (api_fail_http e), [messages]))

/-- `_call_chat_api(messages)`: start at attempt `0` with
`max_retries` retries available. -/
def call_chat_api (messages : List ApiMsg) (provider : Nat → ApiOutcome)
    (max_retries : Nat) : Except HttpError String × List (List ApiMsg) :=
  call_chat_api_loop messages provider 0 max_retries

/-! ## `send_message` -/

/-- The request's optional image: its base64 text and the byte length
of `base64.b64decode` of it. -/
structure ImageB64 where
  base64Data : String
  decodedByteLen : Nat
deriving Repr, DecidableEq

/-- `ChatRequest` (the `session_id` routing is outside the per-session
model). -/
structure ChatRequest where
  step_number : Int
  message : String
  image : Option ImageB64
deriving Repr, DecidableEq

/-- `step_info` part of `ChatResponse`. -/
structure StepInfo where
  step_number : Int
  instruction : String
  tips : String
  is_completed : Bool
deriving Repr, DecidableEq

/-- `session_status` part of `ChatResponse`. -/
structure SessionStatusInfo where
  current_step : Int
  completed_steps : List Int
  progress_percent : Nat
deriving Repr, DecidableEq

/-- `ChatResponse`. -/
structure ChatResponse where
  reply : String
  step_info : StepInfo
  session_status : SessionStatusInfo
deriving Repr, DecidableEq

/-- Result of one `send_message` call: the HTTP outcome, the session
state afterwards, and the trace of provider requests (empty iff the
provider was never called). -/
structure SendResult where
  outcome : Except HttpError ChatResponse
  session : Session
  requests : List (List ApiMsg)
deriving Repr, DecidableEq

/-- Python `history[-n:]`. -/
def takeLast {α : Type} (n : Nat) (l : List α) : List α :=
  l.drop (l.length - n)

/-- The history entry `send_message` appends for the user turn:
multimodal content when an image came with the request, the tagged
plain string otherwise. -/
def user_history_entry (request : ChatRequest) : ChatMsg :=
  match request.image with
  | some img =>
      { role := "user"
        content := build_user_content request.message request.step_number
          (some img.base64Data)
        step_number := request.step_number
        has_image := some true }
  | none =>
      { role := "user"
        content := .text ("[Step " ++ toString request.step_number ++ " 진행 중] "
          ++ request.message)
        step_number := request.step_number
        has_image := some false }

/-- The history entry `send_message` appends for the assistant reply. -/
def assistant_history_entry (request : ChatRequest) (reply : String) : ChatMsg :=
  { role := "assistant"
    content := .text reply
    step_number := request.step_number
    has_image := none }

/-- The provider request `send_message` assembles: the system prompt,
the last `MAX_HISTORY_MESSAGES` history entries, and the new user
content. -/
def build_messages (session : Session) (request : ChatRequest) : List ApiMsg :=
  let steps := session.steps
  let step_number := request.step_number
  let step := steps.getD (step_number - 1).toNat default
  let system_prompt := build_system_prompt session.recipe step step_number steps.length
  let histMsgs := (takeLast MAX_HISTORY_MESSAGES session.chat_history).map
    (fun m => ({ role := m.role, content := m.content } : ApiMsg))
  let user_content := build_user_content request.message step_number
    (request.image.map (fun img => img.base64Data))
  ({ role := "system", content := .text system_prompt } : ApiMsg)
    :: histMsgs ++ [{ role := "user", content := user_content }]

/-- `send_message`: image-size validation, step validation, prompt and
history assembly, the provider call with retries, then the history
append / `current_step` / activity-timestamp mutations and the
response. -/
def send_message (session : Session) (request : ChatRequest)
    (provider : Nat → ApiOutcome) (now : Nat) : SendResult :=
  match request.image.bind (fun img => validate_image_size img.decodedByteLen) with
  | some err => { outcome := .error err, session := session, requests := [] }
  | none =>
    match validate_step_number request.step_number session.steps.length with
    | some err => { outcome := .error err, session := session, requests := [] }
    | none =>
      match call_chat_api (build_messages session request) provider API_MAX_RETRIES with
      | (.error err, reqs) =>
          { outcome := .error err, session := session, requests := reqs }
      | (.ok reply, reqs) =>
          let step_number := request.step_number
          let step := session.steps.getD (step_number - 1).toNat default
          let session' : Session :=
            { session with
                chat_history := session.chat_history
                  ++ [user_history_entry request, assistant_history_entry request reply]
                current_step := step_number
                created_at := now }
          let completed := session'.completed_steps.length
          let total := session'.total_steps
          { outcome := .ok
              { reply := reply
                step_info :=
                  { step_number := step_number
                    instruction := step.instruction.getD ""
                    tips := step.tips.getD ""
                    is_completed := session'.completed_steps.contains step_number }
                session_status :=
                  { current_step := session'.current_step
                    completed_steps := session'.completed_steps
                    progress_percent := calculate_progress completed total } }
            session := session'
            requests := reqs }

/-! ## Sequences of session operations -/

/-- One externally triggered session mutation: a step completion or a
chat turn (with its provider behaviour and wall-clock time). -/
inductive SessionOp where
  | completeStep (step_number : Int)
  | message (request : ChatRequest) (provider : Nat → ApiOutcome) (now : Nat)

/-- State reached after one operation. -/
def applySessionOp (s : Session) (op : SessionOp) : Session :=
  match op with
  | .completeStep n => (complete_step s n).1
  | .message request provider now => (send_message s request provider now).session

/-- State reached after a sequence of operations. -/
def runSession (s : Session) (ops : List SessionOp) : Session :=
  ops.foldl applySessionOp s

/-! ## Data model for jobs (`app/routers/analyze.py`) -/

/-- `MIN_TRANSCRIPT_LENGTH` from `analyze.py`. -/
def MIN_TRANSCRIPT_LENGTH : Nat := 20

/-- Return value of the external video provider
`download_video(url, dir)`. -/
structure VideoInfo where
  video_path : String
  audio_path : String
  video_id : String
  title : String
  duration : Nat
deriving Repr, DecidableEq

/-- Return value of the external transcription provider; the pipeline
only reads `full_text` (via `_is_valid_transcript`), the rest is
carried opaquely into the result. -/
structure Transcript where
  full_text : String
deriving Repr, DecidableEq

/-- The `timing` dict assembled by `process_video`; durations are the
wall-clock stage times, passed in as parameters of the model. -/
structure Timing where
  download : Nat
  transcript : Nat
  transcript_source : String
  parsing : Nat
  total : Nat
deriving Repr, DecidableEq

/-- The `result` dict attached on completion. -/
structure JobResult where
  recipe : Recipe
  video_info : VideoInfo
  transcript : Transcript
  timing : Timing
deriving Repr, DecidableEq

/-- One job record.  `step` and `video_info` are keys first added by
later `update_job` calls, hence optional and `none` at creation. -/
structure Job where
  job_id : String
  status : String
  progress : Nat
  message : String
  url : String
  video_id : String
  result : Option JobResult
  created_at : Nat
  updated_at : Nat
  step : Option String
  video_info : Option VideoInfo
deriving Repr, DecidableEq

/-- The `JobManager`: `_jobs` is an `OrderedDict`, modelled as an
insertion-ordered association list, plus the two configuration
values. -/
structure JobManager where
  jobs : List (String × Job)
  max_jobs : Nat
  expire_window : Nat
deriving Repr, DecidableEq

/-- The fresh record built by `create_job`. -/
def mkJob (job_id url video_id : String) (now : Nat) : Job :=
  { job_id := job_id
    status := "pending"
    progress := 0
    message := "대기 중..."
    url := url
    video_id := video_id
    result := none
    created_at := now
    updated_at := now
    step := none
    video_info := none }

/-- `job.get("created_at") < datetime.now() - timedelta(hours=expire)`,
over `Nat` timestamps. -/
def is_expired (expire_window now : Nat) (j : Job) : Bool :=
  j.created_at + expire_window < now

/-- `self._jobs[job_id] = job` on an `OrderedDict`: replace in place
when the key exists, append otherwise. -/
def dictInsert (jobs : List (String × Job)) (id : String) (j : Job) :
    List (String × Job) :=
  if jobs.any (fun p => p.1 == id) then
    jobs.map (fun p => if p.1 == id then (p.1, j) else p)
  else
    jobs ++ [(id, j)]

/-- The `while len(self._jobs) > self._max_jobs` loop of
`_cleanup_old_jobs`: repeatedly drop the first (oldest-created) entry,
returning the survivors and the ids evicted in order (each has its
artifacts cleaned right before deletion). -/
def evict_overflow (max_jobs : Nat) : List (String × Job) →
    List (String × Job) × List String
  | [] => ([], [])
  | j :: rest =>
      if max_jobs < (j :: rest).length then
        let res := evict_overflow max_jobs rest
        (res.1, j.1 :: res.2)
      else
        (j :: rest, [])

/-- `_cleanup_old_jobs`: delete every expired record (cleaning its
artifacts first), then evict from the front while over capacity.
Returns the new store and the ids whose artifacts were cleaned, in
cleaning order. -/
def cleanup_old_jobs (m : JobManager) (now : Nat) : JobManager × List String :=
  let expired := m.jobs.filter (fun p => is_expired m.expire_window now p.2)
  let kept := m.jobs.filter (fun p => !(is_expired m.expire_window now p.2))
  let res := evict_overflow m.max_jobs kept
  ({ m with jobs := res.1 }, expired.map (fun p => p.1) ++ res.2)

/-- `create_job`: insert the fresh pending record, then sweep. -/
def create_job (m : JobManager) (job_id url video_id : String) (now : Nat) :
    JobManager × Job × List String :=
  let job := mkJob job_id url video_id now
  let m1 : JobManager := { m with jobs := dictInsert m.jobs job_id job }
  let res := cleanup_old_jobs m1 now
  (res.1, job, res.2)

/-- `get_job`: plain dict lookup, no expiry check. -/
def get_job (m : JobManager) (job_id : String) : Option Job :=
  (m.jobs.find? (fun p => p.1 == job_id)).map (fun p => p.2)

/-- `update_job(job_id, **kwargs)`: merge the given fields into the
record and refresh `updated_at` when the id exists, otherwise do
nothing.  The keyword arguments of one call site are modelled as the
field merge `merge`. -/
def update_job (m : JobManager) (job_id : String) (merge : Job → Job)
    (now : Nat) : JobManager :=
  if m.jobs.any (fun p => p.1 == job_id) then
    { m with jobs := m.jobs.map (fun p =>
        if p.1 == job_id then (p.1, { merge p.2 with updated_at := now }) else p) }
  else
    m

/-- `delete_job`: remove the record if present, report whether one
existed. -/
def delete_job (m : JobManager) (job_id : String) : JobManager × Bool :=
  if m.jobs.any (fun p => p.1 == job_id) then
    ({ m with jobs := m.jobs.filter (fun p => !(p.1 == job_id)) }, true)
  else
    (m, false)

/-! ## Pipeline (`process_video` and its stage helpers)

The three external stage calls are parameters: each is the outcome the
provider would return (`.ok` data, or `.error` with the `str` of the
raised stage exception). -/

/-- `_is_valid_transcript`. -/
def is_valid_transcript (transcript : Option Transcript) : Bool :=
  match transcript with
  | none => false
  | some t => MIN_TRANSCRIPT_LENGTH ≤ t.full_text.length

/-- `_step_download`. -/
def step_download (m : JobManager) (job_id : String)
    (download_result : Except String VideoInfo) (now : Nat) :
    JobManager × Except String VideoInfo :=
  let m1 := update_job m job_id (fun j =>
    { j with status := "processing", step := some "download"
             message := "영상 다운로드 중...", progress := 5 }) now
  match download_result with
  | .error e => (m1, .error ("영상 다운로드 실패: " ++ e))
  | .ok info =>
      (update_job m1 job_id (fun j =>
        { j with message := "다운로드 완료!", progress := 25
                 video_info := some info }) now,
       .ok info)

/-- `_step_extract_transcript` (the subtitle branch is commented out in
the code; Whisper is always used). -/
def step_extract_transcript (m : JobManager) (job_id : String)
    (transcribe_result : Except String Transcript) (now : Nat) :
    JobManager × Except String (Transcript × String) :=
  let m1 := update_job m job_id (fun j =>
    { j with step := some "stt", message := "음성 인식 중... (Whisper AI)"
             progress := 35 }) now
  match transcribe_result with
  | .error e => (m1, .error ("음성 인식 실패: " ++ e))
  | .ok transcript =>
      if !(is_valid_transcript (some transcript)) then
        (m1, .error ("영상에서 텍스트를 추출할 수 없습니다. "
          ++ "음성이나 자막이 포함된 영상인지 확인해주세요."))
      else
        (update_job m1 job_id (fun j =>
          { j with message := "텍스트 추출 완료!", progress := 50 }) now,
         .ok (transcript, "whisper"))

/-- `_step_parse_recipe`. -/
def step_parse_recipe (m : JobManager) (job_id : String)
    (parse_result : Except String Recipe) (now : Nat) :
    JobManager × Except String Recipe :=
  let m1 := update_job m job_id (fun j =>
    { j with step := some "parsing", message := "GPT-4o로 레시피 분석 중..."
             progress := 55 }) now
  match parse_result with
  | .error e => (m1, .error ("레시피 분석 실패: " ++ e))
  | .ok recipe =>
      (update_job m1 job_id (fun j =>
        { j with message := "레시피 분석 완료!", progress := 90 }) now,
       .ok recipe)

/-- The final `update_job` of the `except Exception` handler of
`process_video`. -/
def fail_update (m : JobManager) (job_id : String) (e : String) (now : Nat) :
    JobManager :=
  update_job m job_id (fun j =>
    { j with status := "failed", message := "오류 발생: " ++ e, progress := 0 }) now

/-- `process_video`: run the three stages in order; on the first stage
error, mark the job failed; on success, attach the full result.  Stage
durations and the clock are parameters (the code reads `time.time()`). -/
def process_video (m : JobManager) (job_id : String)
    (download_result : Except String VideoInfo)
    (transcribe_result : Except String Transcript)
    (parse_result : Except String Recipe)
    (t_download t_transcript t_parsing : Nat) (now : Nat) : JobManager :=
  match step_download m job_id download_result now with
  | (m1, .error e) => fail_update m1 job_id e now
  | (m1, .ok video_info) =>
    match step_extract_transcript m1 job_id transcribe_result now with
    | (m2, .error e) => fail_update m2 job_id e now
    | (m2, .ok (transcript, transcript_source)) =>
      match step_parse_recipe m2 job_id parse_result now with
      | (m3, .error e) => fail_update m3 job_id e now
      | (m3, .ok recipe) =>
          let timing : Timing :=
            { download := t_download
              transcript := t_transcript
              transcript_source := transcript_source
              parsing := t_parsing
              total := t_download + t_transcript + t_parsing }
          update_job m3 job_id (fun j =>
            { j with step := some "done", message := "레시피 추출 완료!"
                     progress := 100, status := "completed"
                     result := some
                       { recipe := recipe
                         video_info := video_info
                         transcript := transcript
                         timing := timing } }) now

/-- The pure success/failure outcome of the stage chain (which stage
error, if any, reaches the `except Exception` handler). -/
def pipeline_outcome (download_result : Except String VideoInfo)
    (transcribe_result : Except String Transcript)
    (parse_result : Except String Recipe) :
    Except String (VideoInfo × Transcript × Recipe) :=
  match download_result with
  | .error e => .error ("영상 다운로드 실패: " ++ e)
  | .ok video_info =>
    match transcribe_result with
    | .error e => .error ("음성 인식 실패: " ++ e)
    | .ok transcript =>
      if !(is_valid_transcript (some transcript)) then
        .error ("영상에서 텍스트를 추출할 수 없습니다. "
          ++ "음성이나 자막이 포함된 영상인지 확인해주세요.")
      else
        match parse_result with
        | .error e => .error ("레시피 분석 실패: " ++ e)
        | .ok recipe => .ok (video_info, transcript, recipe)

/-! ## Session invariant and operation guards -/

/-- The spec's session invariant: `1 ≤ current_step ≤ total_steps`,
`completed_steps ⊆ [1, total_steps]`, and `total_steps` is the length
of the step snapshot taken at creation. -/
def SessionInv (s : Session) : Prop :=
  1 ≤ s.current_step ∧ s.current_step ≤ (s.total_steps : Int) ∧
  (∀ n ∈ s.completed_steps, 1 ≤ n ∧ n ≤ (s.total_steps : Int)) ∧
  s.total_steps = s.steps.length

/-- Whether an operation's step number is in range; chat turns always
qualify because `send_message` validates its own step number. -/
def opInRange (total_steps : Nat) : SessionOp → Bool
  | .completeStep n => decide (1 ≤ n) && decide (n ≤ (total_steps : Int))
  | .message _ _ _ => true

/-! ## Spec-side description of the eviction policy -/

/-- The spec's description of the records surviving a sweep at time
`now`: among the records whose age is within the expiry window, the
`max_jobs` most recently created (list order is creation order). -/
def spec_survivors (jobs : List (String × Job))
    (expire_window now max_jobs : Nat) : List (String × Job) :=
  let fresh := jobs.filter (fun p => !(is_expired expire_window now p.2))
  fresh.drop (fresh.length - max_jobs)

/-- The spec's description of the ids cleaned by a sweep at time
`now`: every expired record, then — FIFO over creation order — the
oldest-created non-expired records in excess of capacity. -/
def spec_cleaned (jobs : List (String × Job))
    (expire_window now max_jobs : Nat) : List String :=
  let fresh := jobs.filter (fun p => !(is_expired expire_window now p.2))
  (jobs.filter (fun p => is_expired expire_window now p.2)).map (fun p => p.1)
    ++ (fresh.take (fresh.length - max_jobs)).map (fun p => p.1)

/-! ## Concrete instances used in witnesses and counterexamples -/

/-- A three-step recipe. -/
def recipeThree : Recipe :=
  { title := some "김치찌개"
    difficulty := some "쉬움"
    steps := [⟨some "물을 끓인다", none, none, none⟩,
      ⟨some "김치를 넣는다", some "신김치", none, none⟩,
      ⟨some "간을 맞춘다", none, none, none⟩]
    ingredients := ["김치", "물"] }

/-- A recipe with no steps. -/
def recipeEmpty : Recipe :=
  { title := none, difficulty := none, steps := [], ingredients := [] }

/-- A fresh session over `recipeThree`. -/
def sessionThree : Session := start_cooking_session recipeThree 0

/-- A plain chat turn on step 2. -/
def requestStep2 : ChatRequest :=
  { step_number := 2, message := "hello", image := none }

/-- A provider that always answers. -/
def providerReply : Nat → ApiOutcome := fun _ => .success [some "reply!"]

/-- The response `send_message sessionThree requestStep2 providerReply 7`
produces. -/
def responseStep2 : ChatResponse :=
  { reply := "reply!"
    step_info :=
      { step_number := 2, instruction := "김치를 넣는다", tips := "신김치"
        is_completed := false }
    session_status :=
      { current_step := 2, completed_steps := [], progress_percent := 0 } }

/-- A one-message request body for exercising the retry loop. -/
def chatMsgs1 : List ApiMsg := [{ role := "system", content := .text "s" }]

/-- Fails the first attempt with a connection error, then succeeds. -/
def providerConnThenOk : Nat → ApiOutcome := fun n =>
  if n = 0 then .apiConnectionError "down" else .success [some "hi"]

/-- A 15 MB image against the 10 MB cap. -/
def imageLarge : ImageB64 := { base64Data := "imgdata", decodedByteLen := 15 * 1024 * 1024 }

/-- A chat turn carrying the oversized image. -/
def requestLargeImage : ChatRequest :=
  { step_number := 1, message := "what now", image := some imageLarge }

/-- A session with step 1 already completed. -/
def sessionOneDone : Session := (complete_step sessionThree 1).1

/-- An operation sequence with in-range step numbers. -/
def opsWitness : List SessionOp :=
  [.completeStep 1, .message requestStep2 providerReply 7, .completeStep 3]

/-- A two-record store with capacity 1 and a 3-tick expiry window. -/
def storeTwo : JobManager :=
  { jobs := [("a", mkJob "a" "url-a" "vid-a" 0), ("b", mkJob "b" "url-b" "vid-b" 3)]
    max_jobs := 1
    expire_window := 3 }

/-- A store holding only an unrelated record. -/
def storeOther : JobManager :=
  { jobs := [("other", mkJob "other" "u" "v" 0)], max_jobs := 50, expire_window := 24 }

/-- The record of `storeExpired`, created at time 0. -/
def jobOld : Job := mkJob "old" "u" "v" 0

/-- A store whose only record is far past the 3-tick expiry window at
time 10. -/
def storeExpired : JobManager :=
  { jobs := [("old", jobOld)], max_jobs := 50, expire_window := 3 }

/-- A field merge exercising `update_job`. -/
def mergeProgress : Job → Job := fun j => { j with progress := 50 }

/-- A store holding one pipeline job `"j"`. -/
def storePipe : JobManager :=
  { jobs := [("j", mkJob "j" "u" "v" 0)], max_jobs := 50, expire_window := 24 }

/-- Video metadata for pipeline witnesses. -/
def videoInfo1 : VideoInfo :=
  { video_path := "v.mp4", audio_path := "a.mp3", video_id := "vid", title := "T"
    duration := 10 }

/-- A transcript above the 20-character validity threshold. -/
def transcriptOk : Transcript :=
  { full_text := "이것은 스무 글자가 넘는 전사 텍스트입니다!" }

/-! # Theorems

## Retry loop lemmas -/

/-- Every request the retry loop issues is the original one. -/
lemma call_chat_api_loop_requests (messages : List ApiMsg)
    (provider : Nat → ApiOutcome) (retries_left : Nat) :
    ∀ attempt, ∀ q ∈ (call_chat_api_loop messages provider attempt retries_left).2,
      q = messages := by
  induction retries_left with
  | zero =>
      intro a q hq
      unfold call_chat_api_loop at hq
      split at hq <;> simp_all
  | succ rl ih =>
      intro a q hq
      unfold call_chat_api_loop at hq
      split at hq
      · simp_all
      · rcases (by simpa using hq :
          q = messages ∨ q ∈ (call_chat_api_loop messages provider (a + 1) rl).2)
          with h | h
        · exact h
        · exact ih _ _ h
      · simp_all
      · rcases (by simpa using hq :
          q = messages ∨ q ∈ (call_chat_api_loop messages provider (a + 1) rl).2)
          with h | h
        · exact h
        · exact ih _ _ h
      · rcases (by simpa using hq :
          q = messages ∨ q ∈ (call_chat_api_loop messages provider (a + 1) rl).2)
          with h | h
        · exact h
        · exact ih _ _ h
      · simp_all

/-- The loop makes at most `retries_left + 1` attempts. -/
lemma call_chat_api_loop_length (messages : List ApiMsg)
    (provider : Nat → ApiOutcome) (retries_left : Nat) :
    ∀ attempt,
      (call_chat_api_loop messages provider attempt retries_left).2.length
        ≤ retries_left + 1 := by
  induction retries_left with
  | zero =>
      intro a
      unfold call_chat_api_loop
      split <;> simp
  | succ rl ih =>
      intro a
      unfold call_chat_api_loop
      split
      · simp
      · simpa using ih (a + 1)
      · simp
      · simpa using ih (a + 1)
      · simpa using ih (a + 1)
      · simp

/-- Any failure the loop reports is the summarized 500. -/
lemma call_chat_api_loop_error_form (messages : List ApiMsg)
    (provider : Nat → ApiOutcome) (retries_left : Nat) :
    ∀ attempt err,
      (call_chat_api_loop messages provider attempt retries_left).1 = .error err →
      err.status_code = 500 := by
  induction retries_left with
  | zero =>
      intro a err herr
      unfold call_chat_api_loop at herr
      split at herr
      · exact absurd herr (by simp)
      · injection herr with h; rw [← h]; rfl
      · injection herr with h; rw [← h]; rfl
      · injection herr with h; rw [← h]; rfl
      · injection herr with h; rw [← h]; rfl
      · injection herr with h; rw [← h]; rfl
  | succ rl ih =>
      intro a err herr
      unfold call_chat_api_loop at herr
      split at herr
      · exact absurd herr (by simp)
      · exact ih _ _ herr
      · injection herr with h; rw [← h]; rfl
      · exact ih _ _ herr
      · exact ih _ _ herr
      · injection herr with h; rw [← h]; rfl

/-! ## Claim C4 -/

/-- Claim C4 (amended): the chat turn's provider call follows this
retry classification — a rate-limit-class error fails immediately with
no retry; a connection-class error and any other API-level provider
error are retried, the same fixed request each attempt, up to
`max_retries` additional attempts; a non-API exception fails
immediately; in total at most `max_retries + 1` attempts are made, and
whenever no usable content is obtained the call fails with the
summarized 500 error. -/
theorem call_chat_api_retry_policy (messages : List ApiMsg)
    (provider : Nat → ApiOutcome) (max_retries : Nat) :
    (∀ e, provider 0 = .rateLimitError e →
       call_chat_api messages provider max_retries
         = (.error (api_fail_http e), [messages])) ∧
    (∀ e, provider 0 = .otherError e →
       call_chat_api messages provider max_retries
         = (.error (api_fail_http e), [messages])) ∧
    (∀ e rl, provider 0 = .apiConnectionError e → max_retries = rl + 1 →
       call_chat_api messages provider max_retries
         = ((call_chat_api_loop messages provider 1 rl).1,
            messages :: (call_chat_api_loop messages provider 1 rl).2)) ∧
    (∀ e rl, provider 0 = .apiError e → max_retries = rl + 1 →
       call_chat_api messages provider max_retries
         = ((call_chat_api_loop messages provider 1 rl).1,
            messages :: (call_chat_api_loop messages provider 1 rl).2)) ∧
    ((call_chat_api messages provider max_retries).2.length ≤ max_retries + 1) ∧
    (∀ q ∈ (call_chat_api messages provider max_retries).2, q = messages) ∧
    (∀ err, (call_chat_api messages provider max_retries).1 = .error err →
       err.status_code = 500) := by
  refine ⟨?_, ?_, ?_, ?_, ?_, ?_, ?_⟩
  · intro e he
    cases max_retries <;> · unfold call_chat_api call_chat_api_loop; rw [he]
  · intro e he
    cases max_retries <;> · unfold call_chat_api call_chat_api_loop; rw [he]
  · intro e rl he hrl
    subst hrl
    unfold call_chat_api
    conv_lhs => unfold call_chat_api_loop
    rw [he]
  · intro e rl he hrl
    subst hrl
    unfold call_chat_api
    conv_lhs => unfold call_chat_api_loop
    rw [he]
  · exact call_chat_api_loop_length messages provider max_retries 0
  · exact call_chat_api_loop_requests messages provider max_retries 0
  · exact call_chat_api_loop_error_form messages provider max_retries 0

/-- Claim C4, counterexample to the claim as stated: on a provider
error that is neither rate-limit-class nor connection-class (a plain
`APIError`), the code retries rather than failing immediately — the
first attempt fails with an `APIError` and the call nevertheless
succeeds on the second attempt. -/
theorem call_chat_api_counterexample :
    call_chat_api chatMsgs1
      (fun n => if n = 0 then .apiError "boom" else .success [some "hi"])
      API_MAX_RETRIES
      = (.ok "hi", [chatMsgs1, chatMsgs1]) := by
  decide

/-- Claim C4, witness: the retry clause of
`call_chat_api_retry_policy` at a concrete connection failure. -/
theorem call_chat_api_retry_policy_witness :
    providerConnThenOk 0 = .apiConnectionError "down" ∧
    API_MAX_RETRIES = 1 + 1 ∧
    call_chat_api chatMsgs1 providerConnThenOk API_MAX_RETRIES
      = ((call_chat_api_loop chatMsgs1 providerConnThenOk 1 1).1,
         chatMsgs1 :: (call_chat_api_loop chatMsgs1 providerConnThenOk 1 1).2) :=
  ⟨rfl, rfl,
    (call_chat_api_retry_policy chatMsgs1 providerConnThenOk API_MAX_RETRIES).2.2.1
      "down" 1 rfl rfl⟩

/-! ## Claim C3 -/

/-- Claim C3 (amended): re-completing an already-completed step never
duplicates it in `completed_steps`, and an immediately repeated
`complete_step` call leaves the whole session unchanged; however, the
handler unconditionally re-runs the `current_step` advancement, so a
repeat call after intervening operations can change `current_step`
again. -/
theorem complete_step_no_duplicate (s : Session) (n : Int) :
    (n ∈ s.completed_steps →
       (complete_step s n).1.completed_steps = s.completed_steps) ∧
    (complete_step (complete_step s n).1 n).1 = (complete_step s n).1 := by
  constructor
  · intro h
    unfold complete_step
    simp only [if_pos h]
    split <;> rfl
  · unfold complete_step
    by_cases hm : n ∈ s.completed_steps
    · simp only [if_pos hm]
      by_cases hl : n < (s.total_steps : Int)
      · simp [hm, hl]
      · simp [hm, hl]
    · simp only [if_neg hm]
      have hm2 : n ∈ s.completed_steps ++ [n] := by simp
      by_cases hl : n < (s.total_steps : Int)
      · simp [hm2, hl]
      · simp [hm2, hl]

/-- Claim C3, counterexample to the claim as stated: complete step 1,
then step 2 (`current_step` becomes 3), then complete step 1 again —
the step is already in `completed_steps`, yet `current_step` changes a
second time, from 3 back to 2. -/
theorem complete_step_counterexample :
    (complete_step (complete_step sessionThree 1).1 2).1.current_step = 3 ∧
    (1 : Int) ∈ (complete_step (complete_step sessionThree 1).1 2).1.completed_steps ∧
    (complete_step
      (complete_step (complete_step sessionThree 1).1 2).1 1).1.current_step = 2 := by
  decide

/-- Claim C3, witness: no duplication and repeat-call stability on a
session with step 1 already completed. -/
theorem complete_step_no_duplicate_witness :
    (1 : Int) ∈ sessionOneDone.completed_steps ∧
    (complete_step sessionOneDone 1).1.completed_steps
      = sessionOneDone.completed_steps ∧
    (complete_step (complete_step sessionOneDone 1).1 1).1
      = (complete_step sessionOneDone 1).1 :=
  ⟨by decide, (complete_step_no_duplicate sessionOneDone 1).1 (by decide),
    (complete_step_no_duplicate sessionOneDone 1).2⟩

/-! ## Claim C5 -/

/-- Claim C5: a chat turn commits atomically — any failing turn
(validation failure or provider failure after the retry policy)
returns an error and leaves the session, in particular its
`chat_history`, exactly as before; a successful turn appends exactly
two entries, the user turn followed by the assistant reply. -/
theorem send_message_atomic (s : Session) (request : ChatRequest)
    (provider : Nat → ApiOutcome) (now : Nat) :
    (∀ e, (send_message s request provider now).outcome = .error e →
       (send_message s request provider now).session = s) ∧
    (∀ resp, (send_message s request provider now).outcome = .ok resp →
       (send_message s request provider now).session.chat_history
         = s.chat_history
           ++ [user_history_entry request,
               assistant_history_entry request resp.reply]) := by
  cases himg : request.image.bind (fun img => validate_image_size img.decodedByteLen) with
  | some err =>
      have hsm : send_message s request provider now
          = { outcome := .error err, session := s, requests := [] } := by
        unfold send_message; rw [himg]
      rw [hsm]
      exact ⟨fun e _ => rfl, fun resp h => by simp at h⟩
  | none =>
      cases hstep : validate_step_number request.step_number s.steps.length with
      | some err =>
          have hsm : send_message s request provider now
              = { outcome := .error err, session := s, requests := [] } := by
            unfold send_message; rw [himg, hstep]
          rw [hsm]
          exact ⟨fun e _ => rfl, fun resp h => by simp at h⟩
      | none =>
          rcases hcall : call_chat_api (build_messages s request) provider
            API_MAX_RETRIES with ⟨res, reqs⟩
          cases res with
          | error err =>
              have hsm : send_message s request provider now
                  = { outcome := .error err, session := s, requests := reqs } := by
                unfold send_message; rw [himg, hstep, hcall]
              rw [hsm]
              exact ⟨fun e _ => rfl, fun resp h => by simp at h⟩
          | ok reply =>
              have hhist : (send_message s request provider now).session.chat_history
                  = s.chat_history
                    ++ [user_history_entry request,
                        assistant_history_entry request reply] := by
                unfold send_message; rw [himg, hstep, hcall]
              have hreply : ∀ resp,
                  (send_message s request provider now).outcome = .ok resp →
                  resp.reply = reply := by
                unfold send_message; rw [himg, hstep, hcall]
                intro resp h
                injection h with h'
                rw [← h']
              have hok : ∃ resp0,
                  (send_message s request provider now).outcome = .ok resp0 := by
                unfold send_message; rw [himg, hstep, hcall]
                exact ⟨_, rfl⟩
              refine ⟨fun e h => ?_, fun resp h => ?_⟩
              · rcases hok with ⟨r0, hr0⟩
                rw [h] at hr0
                cases hr0
              · rw [hreply resp h]
                exact hhist

/-- Claim C5, witness: a successful turn at a concrete session,
request and provider appends exactly the user and assistant
entries. -/
theorem send_message_atomic_witness :
    (send_message sessionThree requestStep2 providerReply 7).outcome
      = .ok responseStep2 ∧
    (send_message sessionThree requestStep2 providerReply 7).session.chat_history
      = sessionThree.chat_history
        ++ [user_history_entry requestStep2,
            assistant_history_entry requestStep2 responseStep2.reply] :=
  ⟨by decide,
    (send_message_atomic sessionThree requestStep2 providerReply 7).2
      responseStep2 (by decide)⟩

/-! ## Claim C9 -/

/-- Claim C9: a chat turn whose decoded image exceeds the 10 MB cap is
rejected with the 400 invalid-input error before any provider call
(the request trace is empty), and the session state is unchanged. -/
theorem send_message_oversized_image (s : Session) (request : ChatRequest)
    (provider : Nat → ApiOutcome) (now : Nat) (img : ImageB64)
    (himg : request.image = some img)
    (hsize : MAX_IMAGE_SIZE_BYTES < img.decodedByteLen) :
    (send_message s request provider now).outcome
      = .error { status_code := 400
                 detail := "이미지 크기가 너무 큽니다. 최대 "
                   ++ toString MAX_IMAGE_SIZE_MB ++ "MB까지 허용됩니다." } ∧
    (send_message s request provider now).session = s ∧
    (send_message s request provider now).requests = [] := by
  unfold send_message
  rw [himg]
  simp only [Option.some_bind]
  unfold validate_image_size
  rw [if_pos hsize]
  exact ⟨rfl, rfl, rfl⟩

/-- Claim C9, witness: a 15 MB image against the 10 MB cap is rejected
before any model call and the session is untouched. -/
theorem send_message_oversized_image_witness :
    requestLargeImage.image = some imageLarge ∧
    MAX_IMAGE_SIZE_BYTES < imageLarge.decodedByteLen ∧
    ((send_message sessionThree requestLargeImage providerReply 7).outcome
        = .error { status_code := 400
                   detail := "이미지 크기가 너무 큽니다. 최대 "
                     ++ toString MAX_IMAGE_SIZE_MB ++ "MB까지 허용됩니다." } ∧
      (send_message sessionThree requestLargeImage providerReply 7).session
        = sessionThree ∧
      (send_message sessionThree requestLargeImage providerReply 7).requests = []) :=
  ⟨rfl, by decide,
    send_message_oversized_image sessionThree requestLargeImage providerReply 7
      imageLarge rfl (by decide)⟩

/-! ## Claim C1 -/

/-- A successful `validate_step_number` bounds the step number. -/
lemma validate_step_number_none (n : Int) (t : Nat)
    (h : validate_step_number n t = none) : 1 ≤ n ∧ n ≤ (t : Int) := by
  unfold validate_step_number at h
  split at h
  · cases h
  · rename_i hc
    push_neg at hc
    exact ⟨by omega, by omega⟩

/-- `send_message` either leaves the session untouched or commits the
two-entry append with an in-range `current_step`. -/
lemma send_message_session_eq (s : Session) (request : ChatRequest)
    (provider : Nat → ApiOutcome) (now : Nat) :
    (send_message s request provider now).session = s ∨
    ∃ reply, (send_message s request provider now).session
        = { s with
              chat_history := s.chat_history
                ++ [user_history_entry request, assistant_history_entry request reply]
              current_step := request.step_number
              created_at := now } ∧
      validate_step_number request.step_number s.steps.length = none := by
  cases himg : request.image.bind (fun img => validate_image_size img.decodedByteLen) with
  | some err =>
      left
      unfold send_message; rw [himg]
  | none =>
      cases hstep : validate_step_number request.step_number s.steps.length with
      | some err =>
          left
          unfold send_message; rw [himg, hstep]
      | none =>
          rcases hcall : call_chat_api (build_messages s request) provider
            API_MAX_RETRIES with ⟨res, reqs⟩
          cases res with
          | error err =>
              left
              unfold send_message; rw [himg, hstep, hcall]
          | ok reply =>
              right
              refine ⟨reply, ?_, rfl⟩
              unfold send_message; rw [himg, hstep, hcall]

/-- Neither operation changes `total_steps`. -/
lemma applySessionOp_total (s : Session) (op : SessionOp) :
    (applySessionOp s op).total_steps = s.total_steps := by
  cases op with
  | completeStep n =>
      simp only [applySessionOp]
      unfold complete_step
      by_cases hm : n ∈ s.completed_steps <;>
        by_cases hl : n < (s.total_steps : Int) <;> simp [hm, hl]
  | message request provider now =>
      rcases send_message_session_eq s request provider now with h | ⟨reply, h, _⟩ <;>
        · simp only [applySessionOp]; rw [h]

/-- One in-range operation preserves the session invariant. -/
lemma sessionInv_applySessionOp (s : Session) (op : SessionOp)
    (hs : SessionInv s) (hop : opInRange s.total_steps op = true) :
    SessionInv (applySessionOp s op) := by
  obtain ⟨hc1, hc2, hcs, hts⟩ := hs
  cases op with
  | completeStep n =>
      simp only [opInRange, Bool.and_eq_true, decide_eq_true_eq] at hop
      obtain ⟨h1, h2⟩ := hop
      simp only [applySessionOp]
      unfold complete_step
      by_cases hm : n ∈ s.completed_steps
      · simp only [if_pos hm]
        by_cases hl : n < (s.total_steps : Int)
        · simp only [if_pos hl]
          refine ⟨?_, ?_, hcs, hts⟩
          · show (1 : Int) ≤ n + 1
            omega
          · show n + 1 ≤ (s.total_steps : Int)
            omega
        · simp only [if_neg hl]
          exact ⟨hc1, hc2, hcs, hts⟩
      · simp only [if_neg hm]
        have hmem : ∀ x ∈ s.completed_steps ++ [n], 1 ≤ x ∧ x ≤ (s.total_steps : Int) := by
          intro x hx
          rcases List.mem_append.mp hx with hx | hx
          · exact hcs x hx
          · rcases List.mem_singleton.mp hx with rfl
            exact ⟨h1, h2⟩
        by_cases hl : n < (s.total_steps : Int)
        · simp only [if_pos hl]
          refine ⟨?_, ?_, hmem, hts⟩
          · show (1 : Int) ≤ n + 1
            omega
          · show n + 1 ≤ (s.total_steps : Int)
            omega
        · simp only [if_neg hl]
          exact ⟨hc1, hc2, hmem, hts⟩
  | message request provider now =>
      simp only [applySessionOp]
      rcases send_message_session_eq s request provider now with h | ⟨reply, h, hstep⟩
      · rw [h]; exact ⟨hc1, hc2, hcs, hts⟩
      · rw [h]
        have hb := validate_step_number_none _ _ hstep
        refine ⟨hb.1, ?_, hcs, hts⟩
        show request.step_number ≤ (s.total_steps : Int)
        rw [hts]
        exact hb.2

/-- The invariant is preserved along any sequence of in-range
operations. -/
lemma runSession_inv (ops : List SessionOp) :
    ∀ s : Session, SessionInv s →
      (∀ op ∈ ops, opInRange s.total_steps op = true) →
      SessionInv (runSession s ops) := by
  induction ops with
  | nil => exact fun s hs _ => hs
  | cons op rest ih =>
      intro s hs hops
      have h1 := sessionInv_applySessionOp s op hs (hops op (by simp))
      have htot := applySessionOp_total s op
      exact ih _ h1 (fun o ho => htot ▸ hops o (by simp [ho]))

/-- An out-of-range step number makes `send_message` fail before any
session mutation and before any provider call. -/
lemma send_message_rejects_out_of_range (t : Session) (request : ChatRequest)
    (provider : Nat → ApiOutcome) (now : Nat)
    (h : request.step_number < 1 ∨ (t.steps.length : Int) < request.step_number) :
    (send_message t request provider now).session = t ∧
    (send_message t request provider now).requests = [] ∧
    ∃ e, (send_message t request provider now).outcome = .error e := by
  cases himg : request.image.bind (fun img => validate_image_size img.decodedByteLen) with
  | some err =>
      have hsm : send_message t request provider now
          = { outcome := .error err, session := t, requests := [] } := by
        unfold send_message; rw [himg]
      rw [hsm]
      exact ⟨rfl, rfl, _, rfl⟩
  | none =>
      have hstep : validate_step_number request.step_number t.steps.length
          = some { status_code := 400, detail := "잘못된 단계 번호입니다." } := by
        unfold validate_step_number
        rw [if_pos h]
      have hsm : send_message t request provider now
          = { outcome := .error { status_code := 400, detail := "잘못된 단계 번호입니다." }
              session := t, requests := [] } := by
        unfold send_message; rw [himg, hstep]
      rw [hsm]
      exact ⟨rfl, rfl, _, rfl⟩

/-- Claim C1 (amended): for a session created from a recipe with at
least one step, the invariant `1 ≤ current_step ≤ total_steps` with
`completed_steps ⊆ [1, total_steps]` holds after any sequence of chat
turns and of step completions whose step numbers are in range, and
`send_message` rejects an out-of-range step number before mutating the
session or calling the provider; `complete_step` itself performs no
range validation, so out-of-range completions are not rejected (see
the counterexample). -/
theorem session_step_invariant (recipe : Recipe) (created : Nat)
    (ops : List SessionOp)
    (hsteps : 1 ≤ recipe.steps.length)
    (hops : ∀ op ∈ ops, opInRange recipe.steps.length op = true) :
    SessionInv (runSession (start_cooking_session recipe created) ops) ∧
    (∀ (t : Session) (request : ChatRequest) (provider : Nat → ApiOutcome)
       (now : Nat),
       request.step_number < 1 ∨ (t.steps.length : Int) < request.step_number →
       (send_message t request provider now).session = t ∧
       (send_message t request provider now).requests = [] ∧
       ∃ e, (send_message t request provider now).outcome = .error e) := by
  constructor
  · refine runSession_inv ops (start_cooking_session recipe created)
      ⟨?_, ?_, ?_, rfl⟩ hops
    · show (1 : Int) ≤ 1
      norm_num
    · show (1 : Int) ≤ (recipe.steps.length : Int)
      exact_mod_cast hsteps
    · show ∀ n ∈ ([] : List Int), 1 ≤ n ∧ n ≤ ((recipe.steps.length : Nat) : Int)
      intro n hn
      cases hn
  · exact fun t request provider now h =>
      send_message_rejects_out_of_range t request provider now h

/-- Claim C1, counterexample to the claim as stated: `complete_step`
does not validate its step number — completing step `0` of a 3-step
session records `0` in `completed_steps` (outside `[1, 3]`) instead of
being rejected, completing step `-3` drives `current_step` to `-2`,
and a session created from a recipe with no steps starts with
`current_step = 1 > 0 = total_steps`. -/
theorem session_step_invariant_counterexample :
    (complete_step sessionThree 0).1.completed_steps = [0] ∧
    ¬ (1 ≤ (0 : Int)) ∧
    (complete_step sessionThree (-3)).1.current_step = -2 ∧
    (start_cooking_session recipeEmpty 0).current_step = 1 ∧
    (start_cooking_session recipeEmpty 0).total_steps = 0 := by
  decide

/-- Claim C1, witness: a concrete in-range operation sequence on a
3-step recipe keeps the invariant, and a concrete out-of-range chat
turn is rejected without mutation. -/
theorem session_step_invariant_witness :
    1 ≤ recipeThree.steps.length ∧
    (∀ op ∈ opsWitness, opInRange recipeThree.steps.length op = true) ∧
    SessionInv (runSession (start_cooking_session recipeThree 0) opsWitness) ∧
    ((send_message sessionThree { step_number := 4, message := "x", image := none }
        providerReply 7).session = sessionThree ∧
      (send_message sessionThree { step_number := 4, message := "x", image := none }
        providerReply 7).requests = [] ∧
      ∃ e, (send_message sessionThree { step_number := 4, message := "x", image := none }
        providerReply 7).outcome = .error e) :=
  ⟨by decide, by decide,
    (session_step_invariant recipeThree 0 opsWitness (by decide) (by decide)).1,
    (session_step_invariant recipeThree 0 opsWitness (by decide) (by decide)).2
      sessionThree { step_number := 4, message := "x", image := none }
      providerReply 7 (by decide)⟩

/-! ## Job store lemmas -/

/-- Updating the values of the matching keys commutes with lookup. -/
lemma find?_map_key (l : List (String × Job)) (id : String) (g : Job → Job) :
    (l.map (fun p => if p.1 == id then (p.1, g p.2) else p)).find?
        (fun p => p.1 == id)
      = (l.find? (fun p => p.1 == id)).map (fun p => (p.1, g p.2)) := by
  induction l with
  | nil => rfl
  | cons p t ih =>
      simp only [List.map_cons]
      by_cases hp : (p.1 == id) = true
      · rw [if_pos hp]
        simp [hp]
      · have hp' : (p.1 == id) = false := by simpa using hp
        rw [if_neg hp, List.find?_cons, List.find?_cons, hp']
        exact ih

/-- Lookup after `update_job` on the same id. -/
lemma get_job_update_self (m : JobManager) (id : String) (g : Job → Job)
    (now : Nat) :
    get_job (update_job m id g now) id
      = (get_job m id).map (fun j => { g j with updated_at := now }) := by
  unfold get_job update_job
  by_cases h : m.jobs.any (fun p => p.1 == id) = true
  · rw [if_pos h]
    dsimp only
    rw [find?_map_key m.jobs id (fun j => { g j with updated_at := now })]
    cases m.jobs.find? (fun p => p.1 == id) <;> rfl
  · rw [if_neg h]
    have hf : m.jobs.find? (fun p => p.1 == id) = none := by
      rw [List.find?_eq_none]
      intro x hx hbx
      exact h (List.any_eq_true.mpr ⟨x, hx, hbx⟩)
    rw [hf]
    rfl

/-- Lookup after `update_job` when the record is present. -/
lemma get_job_update_some (m : JobManager) (id : String) (g : Job → Job)
    (now : Nat) (j : Job) (h : get_job m id = some j) :
    get_job (update_job m id g now) id = some { g j with updated_at := now } := by
  rw [get_job_update_self, h]
  rfl

/-- `update_job` on an absent id does nothing. -/
lemma update_job_absent (m : JobManager) (id : String)
    (h : get_job m id = none) (g : Job → Job) (now : Nat) :
    update_job m id g now = m := by
  unfold update_job
  rw [if_neg]
  intro hany
  rcases List.any_eq_true.mp hany with ⟨x, hx, hbx⟩
  have hf : m.jobs.find? (fun p => p.1 == id) = none := by
    cases hf : m.jobs.find? (fun p => p.1 == id) with
    | none => rfl
    | some p =>
        unfold get_job at h
        rw [hf] at h
        cases h
  exact absurd hbx (List.find?_eq_none.mp hf x hx)

/-! ## Claim C8 -/

/-- Claim C8: on a job id absent from the store, `update_job` leaves
the store completely unchanged, and hence a whole pipeline run whose
record has been deleted is a silent no-op on the store. -/
theorem update_job_absent_noop (m : JobManager) (job_id : String)
    (h : get_job m job_id = none) :
    (∀ g now, update_job m job_id g now = m) ∧
    (∀ dl tr pr t1 t2 t3 now,
      process_video m job_id dl tr pr t1 t2 t3 now = m) := by
  have hu : ∀ g now, update_job m job_id g now = m :=
    fun g now => update_job_absent m job_id h g now
  refine ⟨hu, ?_⟩
  intro dl tr pr t1 t2 t3 now
  cases dl with
  | error e => simp [process_video, step_download, fail_update, hu]
  | ok vi =>
      cases tr with
      | error e =>
          simp [process_video, step_download, step_extract_transcript,
            fail_update, hu]
      | ok t =>
          cases hv : is_valid_transcript (some t) with
          | false =>
              simp [process_video, step_download, step_extract_transcript,
                fail_update, hu, hv]
          | true =>
              cases pr with
              | error e =>
                  simp [process_video, step_download, step_extract_transcript,
                    step_parse_recipe, fail_update, hu, hv]
              | ok r =>
                  simp [process_video, step_download, step_extract_transcript,
                    step_parse_recipe, fail_update, hu, hv]

/-- Claim C8, witness: updating and running the pipeline against a
deleted job id leaves a concrete store untouched. -/
theorem update_job_absent_noop_witness :
    get_job storeOther "gone" = none ∧
    update_job storeOther "gone" mergeProgress 9 = storeOther ∧
    process_video storeOther "gone" (.error "x") (.ok transcriptOk)
      (.ok recipeThree) 1 2 3 9 = storeOther :=
  ⟨by decide,
    (update_job_absent_noop storeOther "gone" (by decide)).1 mergeProgress 9,
    (update_job_absent_noop storeOther "gone" (by decide)).2
      (.error "x") (.ok transcriptOk) (.ok recipeThree) 1 2 3 9⟩

/-! ## Claim C2 -/

/-- The capacity-eviction loop keeps exactly the last `max_jobs`
entries and evicts the leading excess, in order. -/
lemma evict_overflow_spec (max_jobs : Nat) (l : List (String × Job)) :
    evict_overflow max_jobs l
      = (l.drop (l.length - max_jobs),
         (l.take (l.length - max_jobs)).map (fun p => p.1)) := by
  induction l with
  | nil => simp [evict_overflow]
  | cons p t ih =>
      unfold evict_overflow
      by_cases h : max_jobs < (p :: t).length
      · rw [if_pos h, ih]
        simp only [List.length_cons] at h
        have hlen : (p :: t).length - max_jobs = (t.length - max_jobs) + 1 := by
          simp only [List.length_cons]
          omega
        rw [hlen, List.drop_succ_cons, List.take_succ_cons, List.map_cons]
      · rw [if_neg h]
        simp only [List.length_cons] at h
        have hlen : (p :: t).length - max_jobs = 0 := by
          simp only [List.length_cons]
          omega
        rw [hlen, List.drop_zero, List.take_zero, List.map_nil]

/-- Inserting a fresh key into the ordered dict appends it. -/
lemma dictInsert_fresh (jobs : List (String × Job)) (id : String) (j : Job)
    (h : ∀ p ∈ jobs, p.1 ≠ id) : dictInsert jobs id j = jobs ++ [(id, j)] := by
  unfold dictInsert
  rw [if_neg]
  intro hany
  rcases List.any_eq_true.mp hany with ⟨x, hx, hbx⟩
  exact h x hx (by simpa using hbx)

/-- Claim C2: creating a job under a fresh id leaves at most
`max_jobs` records; the survivors are exactly the `max_jobs` most
recently created among the records within the expiry window
(insertion order is creation order), and the ids cleaned — artifacts
first, then deletion — are the expired ones followed by the
oldest-created overflow, FIFO. -/
theorem create_job_capacity (m : JobManager) (job_id url video_id : String)
    (now : Nat) (hfresh : ∀ p ∈ m.jobs, p.1 ≠ job_id) :
    ((create_job m job_id url video_id now).1.jobs.length ≤ m.max_jobs) ∧
    ((create_job m job_id url video_id now).1.jobs
      = spec_survivors (m.jobs ++ [(job_id, mkJob job_id url video_id now)])
          m.expire_window now m.max_jobs) ∧
    ((create_job m job_id url video_id now).2.2
      = spec_cleaned (m.jobs ++ [(job_id, mkJob job_id url video_id now)])
          m.expire_window now m.max_jobs) := by
  have hins := dictInsert_fresh m.jobs job_id (mkJob job_id url video_id now) hfresh
  unfold create_job cleanup_old_jobs
  dsimp only
  rw [hins, evict_overflow_spec]
  unfold spec_survivors spec_cleaned
  refine ⟨?_, rfl, rfl⟩
  rw [List.length_drop]
  omega

/-- Claim C2, witness: creating `"c"` at time 5 in a capacity-1 store
holding `"a"` (expired) and `"b"` evicts both — `"a"` by expiry, `"b"`
by FIFO capacity eviction — and keeps exactly `["c"]`. -/
theorem create_job_capacity_witness :
    (∀ p ∈ storeTwo.jobs, p.1 ≠ "c") ∧
    ((create_job storeTwo "c" "url-c" "vid-c" 5).1.jobs.length
        ≤ storeTwo.max_jobs ∧
      (create_job storeTwo "c" "url-c" "vid-c" 5).1.jobs
        = spec_survivors (storeTwo.jobs ++ [("c", mkJob "c" "url-c" "vid-c" 5)])
            storeTwo.expire_window 5 storeTwo.max_jobs ∧
      (create_job storeTwo "c" "url-c" "vid-c" 5).2.2
        = spec_cleaned (storeTwo.jobs ++ [("c", mkJob "c" "url-c" "vid-c" 5)])
            storeTwo.expire_window 5 storeTwo.max_jobs) :=
  ⟨by decide, create_job_capacity storeTwo "c" "url-c" "vid-c" 5 (by decide)⟩

/-! ## Claims C6 and C7 -/

/-- The transcript stage on an invalid transcript: only the stt
progress update happens, and the validity error is raised. -/
lemma step_extract_invalid (m : JobManager) (job_id : String) (t : Transcript)
    (now : Nat) (hv : is_valid_transcript (some t) = false) :
    step_extract_transcript m job_id (.ok t) now
      = (update_job m job_id (fun j =>
            { j with step := some "stt", message := "음성 인식 중... (Whisper AI)"
                     progress := 35 }) now,
         .error ("영상에서 텍스트를 추출할 수 없습니다. "
           ++ "음성이나 자막이 포함된 영상인지 확인해주세요.")) := by
  unfold step_extract_transcript
  dsimp only
  rw [hv]
  rfl

/-- The transcript stage on a valid transcript: the stt update, the
completion update, and the `whisper`-sourced transcript. -/
lemma step_extract_valid (m : JobManager) (job_id : String) (t : Transcript)
    (now : Nat) (hv : is_valid_transcript (some t) = true) :
    step_extract_transcript m job_id (.ok t) now
      = (update_job
           (update_job m job_id (fun j =>
             { j with step := some "stt", message := "음성 인식 중... (Whisper AI)"
                      progress := 35 }) now)
           job_id (fun j => { j with message := "텍스트 추출 완료!", progress := 50 })
           now,
         .ok (t, "whisper")) := by
  unfold step_extract_transcript
  dsimp only
  rw [hv]
  rfl

/-- Claim C6: a pipeline run that raises at any stage leaves the job
record with `status = "failed"`, `progress = 0`, a message carrying
the stage's error text, and no result ever attached. -/
theorem process_video_failure (m : JobManager) (job_id : String)
    (dl : Except String VideoInfo) (tr : Except String Transcript)
    (pr : Except String Recipe) (t1 t2 t3 now : Nat) (e : String) (j : Job)
    (hout : pipeline_outcome dl tr pr = .error e)
    (hj : get_job m job_id = some j) (hres : j.result = none) :
    ∃ jf, get_job (process_video m job_id dl tr pr t1 t2 t3 now) job_id
        = some jf ∧
      jf.status = "failed" ∧ jf.progress = 0 ∧
      jf.message = "오류 발생: " ++ e ∧ jf.result = none := by
  cases dl with
  | error ed =>
      have he : "영상 다운로드 실패: " ++ ed = e := by
        unfold pipeline_outcome at hout
        injection hout
      subst he
      unfold process_video step_download fail_update
      dsimp only
      simp only [get_job_update_self, hj, Option.map_some']
      exact ⟨_, rfl, rfl, rfl, rfl, hres⟩
  | ok vi =>
      cases tr with
      | error et =>
          have he : "음성 인식 실패: " ++ et = e := by
            unfold pipeline_outcome at hout
            injection hout
          subst he
          unfold process_video step_download step_extract_transcript fail_update
          dsimp only
          simp only [get_job_update_self, hj, Option.map_some']
          exact ⟨_, rfl, rfl, rfl, rfl, hres⟩
      | ok t =>
          cases hv : is_valid_transcript (some t) with
          | false =>
              have he : ("영상에서 텍스트를 추출할 수 없습니다. "
                  ++ "음성이나 자막이 포함된 영상인지 확인해주세요.") = e := by
                unfold pipeline_outcome at hout
                dsimp only at hout
                rw [hv] at hout
                injection hout
              subst he
              unfold process_video step_download
              dsimp only
              rw [step_extract_invalid _ _ _ _ hv]
              unfold fail_update
              dsimp only
              simp only [get_job_update_self, hj, Option.map_some']
              exact ⟨_, rfl, rfl, rfl, rfl, hres⟩
          | true =>
              cases pr with
              | error ep =>
                  have he : "레시피 분석 실패: " ++ ep = e := by
                    unfold pipeline_outcome at hout
                    dsimp only at hout
                    rw [hv] at hout
                    injection hout
                  subst he
                  unfold process_video step_download step_parse_recipe
                  dsimp only
                  rw [step_extract_valid _ _ _ _ hv]
                  unfold fail_update
                  dsimp only
                  simp only [get_job_update_self, hj, Option.map_some']
                  exact ⟨_, rfl, rfl, rfl, rfl, hres⟩
              | ok r =>
                  exfalso
                  unfold pipeline_outcome at hout
                  dsimp only at hout
                  rw [hv] at hout
                  cases hout

/-- Claim C6, witness: a transcription failure at a concrete store
marks the job failed with progress 0, the stage error in the message,
and no result. -/
theorem process_video_failure_witness :
    pipeline_outcome (Except.ok videoInfo1) (Except.error "bad audio")
      (Except.ok recipeThree) = .error "음성 인식 실패: bad audio" ∧
    get_job storePipe "j" = some (mkJob "j" "u" "v" 0) ∧
    (mkJob "j" "u" "v" 0).result = none ∧
    ∃ jf, get_job (process_video storePipe "j" (Except.ok videoInfo1)
        (Except.error "bad audio") (Except.ok recipeThree) 1 2 3 9) "j"
        = some jf ∧
      jf.status = "failed" ∧ jf.progress = 0 ∧
      jf.message = "오류 발생: " ++ "음성 인식 실패: bad audio" ∧ jf.result = none :=
  ⟨by decide, by decide, rfl,
    process_video_failure storePipe "j" (Except.ok videoInfo1)
      (Except.error "bad audio") (Except.ok recipeThree) 1 2 3 9
      "음성 인식 실패: bad audio" (mkJob "j" "u" "v" 0)
      (by decide) (by decide) rfl⟩

/-- Claim C7: a pipeline run whose three stages all succeed leaves the
job record with `progress = 100`, `status = "completed"`,
`step = "done"`, and a result holding the recipe, the video info, the
transcript, and per-stage plus total timing. -/
theorem process_video_success (m : JobManager) (job_id : String)
    (vi : VideoInfo) (t : Transcript) (r : Recipe)
    (t1 t2 t3 now : Nat) (j : Job)
    (hv : is_valid_transcript (some t) = true)
    (hj : get_job m job_id = some j) :
    ∃ jf, get_job (process_video m job_id (.ok vi) (.ok t) (.ok r) t1 t2 t3 now)
        job_id = some jf ∧
      jf.progress = 100 ∧ jf.status = "completed" ∧ jf.step = some "done" ∧
      jf.result = some
        { recipe := r, video_info := vi, transcript := t
          timing := { download := t1, transcript := t2
                      transcript_source := "whisper"
                      parsing := t3, total := t1 + t2 + t3 } } := by
  unfold process_video step_download step_parse_recipe
  dsimp only
  rw [step_extract_valid _ _ _ _ hv]
  dsimp only
  simp only [get_job_update_self, hj, Option.map_some']
  exact ⟨_, rfl, rfl, rfl, rfl, rfl⟩

/-- Claim C7, witness: a fully successful concrete run completes the
job with the full result attached. -/
theorem process_video_success_witness :
    is_valid_transcript (some transcriptOk) = true ∧
    get_job storePipe "j" = some (mkJob "j" "u" "v" 0) ∧
    ∃ jf, get_job (process_video storePipe "j" (Except.ok videoInfo1)
        (Except.ok transcriptOk) (Except.ok recipeThree) 1 2 3 9) "j"
        = some jf ∧
      jf.progress = 100 ∧ jf.status = "completed" ∧ jf.step = some "done" ∧
      jf.result = some
        { recipe := recipeThree, video_info := videoInfo1
          transcript := transcriptOk
          timing := { download := 1, transcript := 2
                      transcript_source := "whisper"
                      parsing := 3, total := 1 + 2 + 3 } } :=
  ⟨by decide, by decide,
    process_video_success storePipe "j" videoInfo1 transcriptOk recipeThree
      1 2 3 9 (mkJob "j" "u" "v" 0) (by decide) (by decide)⟩

/-! ## Claim C10 -/

/-- Membership in the ordered-dict insert: an element is an old entry
or carries the inserted key. -/
lemma mem_dictInsert (jobs : List (String × Job)) (id0 : String) (j0 : Job)
    (q : String × Job) (hq : q ∈ dictInsert jobs id0 j0) :
    q ∈ jobs ∨ q.1 = id0 := by
  unfold dictInsert at hq
  split at hq
  · rcases List.mem_map.mp hq with ⟨p, hp, hpe⟩
    by_cases hpid : (p.1 == id0) = true
    · rw [if_pos hpid] at hpe
      right
      rw [← hpe]
      simpa using hpid
    · rw [if_neg hpid] at hpe
      left
      rw [← hpe]
      exact hp
  · rcases List.mem_append.mp hq with h | h
    · exact Or.inl h
    · right
      rcases List.mem_singleton.mp h with rfl
      rfl

/-- Capacity eviction only removes entries. -/
lemma evict_overflow_subset (max_jobs : Nat) (l : List (String × Job)) :
    ∀ q ∈ (evict_overflow max_jobs l).1, q ∈ l := by
  rw [evict_overflow_spec]
  intro q hq
  exact List.drop_subset _ _ hq

/-- Claim C10: expiry is enforced only by the sweep on `create` — a
lookup still returns a record whose age exceeds the expiry window, an
`update_job` keeps it (merely merging fields), and the record
disappears only through the next create's sweep or an explicit
delete. -/
theorem get_job_expiry_lazy (m : JobManager) (id : String) (j : Job) (now : Nat)
    (hfind : m.jobs.find? (fun p => p.1 == id) = some (id, j))
    (hexp : is_expired m.expire_window now j = true)
    (hall : ∀ p ∈ m.jobs, p.1 = id → is_expired m.expire_window now p.2 = true) :
    get_job m id = some j ∧
    (∀ g t, get_job (update_job m id g t) id = some { g j with updated_at := t }) ∧
    (∀ id2 url vid, id2 ≠ id →
       get_job (create_job m id2 url vid now).1 id = none) ∧
    get_job (delete_job m id).1 id = none ∧
    (delete_job m id).2 = true := by
  have hget : get_job m id = some j := by
    unfold get_job
    rw [hfind]
    rfl
  have hany : m.jobs.any (fun p => p.1 == id) = true :=
    List.any_eq_true.mpr
      ⟨(id, j), List.mem_of_find?_eq_some hfind, by simp⟩
  refine ⟨hget, fun g t => get_job_update_some m id g t j hget, ?_, ?_, ?_⟩
  · intro id2 url vid hne
    unfold create_job cleanup_old_jobs get_job
    dsimp only
    rw [Option.map_eq_none']
    rw [List.find?_eq_none]
    intro q hq hbq
    have hq1 : q ∈ (dictInsert m.jobs id2 (mkJob id2 url vid now)).filter
        (fun p => !(is_expired m.expire_window now p.2)) :=
      evict_overflow_subset _ _ q hq
    have hq2 := List.mem_filter.mp hq1
    have hqid : q.1 = id := by simpa using hbq
    rcases mem_dictInsert _ _ _ _ hq2.1 with hmem | hkey
    · have hex := hall q hmem hqid
      rw [hex] at hq2
      simp at hq2
    · exact hne (hkey.symm.trans hqid)
  · unfold delete_job get_job
    rw [if_pos hany]
    dsimp only
    rw [Option.map_eq_none']
    rw [List.find?_eq_none]
    intro q hq hbq
    have := (List.mem_filter.mp hq).2
    rw [hbq] at this
    simp at this
  · unfold delete_job
    rw [if_pos hany]

/-- Claim C10, witness: a record seven ticks past a 3-tick expiry
window is still returned by `get_job` and survives an `update_job`; it
is removed by the next create's sweep and by an explicit delete. -/
theorem get_job_expiry_lazy_witness :
    storeExpired.jobs.find? (fun p => p.1 == "old") = some ("old", jobOld) ∧
    is_expired storeExpired.expire_window 10 jobOld = true ∧
    get_job storeExpired "old" = some jobOld ∧
    get_job (update_job storeExpired "old" mergeProgress 11) "old"
      = some { mergeProgress jobOld with updated_at := 11 } ∧
    get_job (create_job storeExpired "new" "u2" "v2" 10).1 "old" = none ∧
    get_job (delete_job storeExpired "old").1 "old" = none ∧
    (delete_job storeExpired "old").2 = true := by
  have T := get_job_expiry_lazy storeExpired "old" jobOld 10
    (by decide) (by decide) (by decide)
  exact ⟨by decide, by decide, T.1, T.2.1 mergeProgress 11,
    T.2.2.1 "new" "u2" "v2" (by decide), T.2.2.2.1, T.2.2.2.2⟩

end KTB
